import Mathlib

/-
Verification of the console_chatbot repository (src/main.py, src/rag_core.py,
src/utils.py) against its natural-language specification.

The development shallow-embeds the three Python modules:
  * the per-session conversation store of src/utils.py (the global `store`
    dict, `get_session_history`, `save_session_history`, the JSON session
    files, `RetrieverHolder` and `DummyRetriever`);
  * the document-ingestion function `load_and_process_document` and the
    chain construction of src/rag_core.py (`format_docs`,
    `dynamic_retrieval`, the prompt template);
  * the interactive loop of src/main.py (`/load` command handling and the
    per-turn invoke / save / error-recovery logic).

External services (the langchain document loaders, the Gemini embedding
service, the FAISS index, the chat model) are modelled as oracles supplied
in an environment record, since the repository treats them as opaque
request/response collaborators.  Printed diagnostics of
`load_and_process_document` are modelled explicitly because they are the
only channel on which the ingestion failure conditions differ.
-/

/- String literals used by the embedding, named so every literal occurs
exactly once. -/

def typeKey : String := "type"

def contentKey : String := "content"

def humanStr : String := "human"

def aiStr : String := "ai"

/-- The role of a chat message: `HumanMessage` or `AIMessage` in
langchain terms (src/utils.py imports exactly these two constructors). -/
inductive Role where
  | human
  | ai
deriving DecidableEq, Repr

/-- The `.type` attribute of a langchain message: `"human"` for
`HumanMessage` and `"ai"` for `AIMessage`; this is the string written into
the session file by `save_session_history` (src/utils.py line 117). -/
def Role.typeName : Role → String
  | .human => humanStr
  | .ai => aiStr

/-- One chat message: role plus text content.  Messages are immutable once
appended (spec section 3). -/
structure Message where
  role : Role
  content : String
deriving DecidableEq, Repr

/-- A JSON value, as produced by Python `json.load`.  Numbers are folded to
`Int`: no claim inspects a numeric payload. -/
inductive Json where
  | str (s : String)
  | num (n : Int)
  | bool (b : Bool)
  | null
  | arr (items : List Json)
  | obj (fields : List (String × Json))

/-- Python `d[key]` on a dict, embedded over the association list of an
object's fields: the first binding for `key` wins, absence is `none`
(a `KeyError` at the call site). -/
def jlookup (key : String) : List (String × Json) → Option Json
  | [] => none
  | (k, v) :: rest => if k = key then some v else jlookup key rest

/-- Python `j == s` for a JSON value `j` and a string literal `s`: true
exactly when `j` is the string `s` (comparisons of non-strings with a
string are `False` in Python, not an error). -/
def jsonEqStr (j : Json) (s : String) : Bool :=
  match j with
  | .str t => t = s
  | _ => false

/--
One iteration of the load loop of `get_session_history`
(src/utils.py lines 86-94) on one element `message_data` of the parsed
array.  Result:
  * `some (some m)` — the entry was appended as message `m`;
  * `some none`    — the entry's `"type"` was neither `"human"` nor
    `"ai"`, so no branch fired and the entry was skipped;
  * `none`         — evaluating the body raised: `message_data["type"]` on
    a non-dict raises `TypeError`; a missing `"type"` or `"content"` key
    raises `KeyError`; a non-string `"content"` is modelled as a
    constructor failure (the persisted format only ever holds strings
    there, and every claim below stays within that format).
-/
def entryStep : Json → Option (Option Message)
  | .obj fields =>
    match jlookup typeKey fields with
    | none => none
    | some t =>
      if jsonEqStr t humanStr then
        match jlookup contentKey fields with
        | some (.str c) => some (some ⟨.human, c⟩)
        | some _ => none
        | none => none
      else if jsonEqStr t aiStr then
        match jlookup contentKey fields with
        | some (.str c) => some (some ⟨.ai, c⟩)
        | some _ => none
        | none => none
      else
        some none
  | _ => none

/--
The load loop of `get_session_history` (src/utils.py lines 86-94) run over
the elements of the parsed array, with `acc` the messages added so far.
The whole loop sits inside one `try ... except: pass`, and
`history.add_message` mutates the history object immediately, so an entry
that raises stops the loop while keeping every message appended by earlier
iterations.
-/
def loadEntries : List Json → List Message → List Message
  | [], acc => acc
  | j :: rest, acc =>
    match entryStep j with
    | none => acc
    | some none => loadEntries rest acc
    | some (some m) => loadEntries rest (acc ++ [m])

/-- The contents of a durable session file as seen through `json.load`:
either the text does not parse (`json.load` raises, caught by the
surrounding `except`) or it parses to a JSON value. -/
inductive FileContent where
  | unparsable
  | parsed (j : Json)

/--
Reading one session file inside `get_session_history`
(src/utils.py lines 81-97).  Unparsable text raises before anything is
appended, so the history stays empty.  A parsed non-array value also
yields an empty history: iterating a dict yields its keys and a string
yields its characters, and subscripting either with `"type"` raises
`TypeError` on the first iteration (with an empty dict or string the loop
body never runs); iterating a number, boolean or `null` raises
`TypeError` immediately.  In every such case the `except` clause fires
with no message appended.
-/
def loadFile : FileContent → List Message
  | .unparsable => []
  | .parsed (.arr items) => loadEntries items []
  | .parsed _ => []

/-- The serialization of one message performed by `save_session_history`
(src/utils.py lines 116-118): `{"type": msg.type, "content": msg.content}`. -/
def encodeMsg (m : Message) : Json :=
  .obj [(typeKey, .str m.role.typeName), (contentKey, .str m.content)]

/-- The full serialized history written by `save_session_history`
(src/utils.py line 122): a JSON array of the encoded messages in
transcript order. -/
def serialize (msgs : List Message) : Json :=
  .arr (msgs.map encodeMsg)

/--
The process-wide session state of src/utils.py: the global `store` dict
(session id to in-memory transcript) and the durable files of the
`chat_history` directory (session id to file contents; `none` means the
file does not exist).  Both are Python dicts / a filesystem directory, so
each key holds at most one value by construction.
-/
structure SessionState where
  store : String → Option (List Message)
  files : String → Option FileContent

/-- Python `store[session_id] = history` (src/utils.py line 99). -/
def storePut (sid : String) (h : List Message) (s : SessionState) : SessionState :=
  { s with store := fun k => if k = sid then some h else s.store k }

/-- Writing the session file (src/utils.py lines 121-122).  The write sits
in a `try ... except` that only prints on failure; the successful write is
modelled, and a failed write leaves the files unchanged — no claim
concerns the failed-write path. -/
def filesPut (sid : String) (fc : FileContent) (s : SessionState) : SessionState :=
  { s with files := fun k => if k = sid then some fc else s.files k }

/-- The history a first access computes for `sid` (src/utils.py
lines 78-97): load the session file if it exists, else start empty. -/
def initialLoad (sid : String) (s : SessionState) : List Message :=
  match s.files sid with
  | some fc => loadFile fc
  | none => []

/--
`get_session_history` (src/utils.py lines 55-100): on a cache hit return
the stored transcript and leave the state alone; on a miss build the
transcript from the durable file (empty when absent or when loading
fails), install it in the store, and return it.
-/
def get_session_history (sid : String) (s : SessionState) :
    List Message × SessionState :=
  match s.store sid with
  | some h => (h, s)
  | none => (initialLoad sid s, storePut sid (initialLoad sid s) s)

/--
`save_session_history` (src/utils.py lines 103-124): if `sid` has an
in-memory transcript, overwrite its durable file with the serialized
transcript; otherwise do nothing.  The store itself is never modified.
-/
def save_session_history (sid : String) (s : SessionState) : SessionState :=
  match s.store sid with
  | some h => filesPut sid (.parsed (serialize h)) s
  | none => s

/-- The transcript an observer reads for `sid`: what `get_session_history`
returns. -/
def historyView (sid : String) (s : SessionState) : List Message :=
  (get_session_history sid s).1

/- ====================================================================
Document ingestion (src/rag_core.py, `load_and_process_document`)
==================================================================== -/

/-- A langchain `Document`: text plus source metadata (spec section 3,
"Chunk").  Produced by the external loaders and the splitter. -/
structure Document where
  page_content : String
  metadata : List (String × String)

/-- The two retriever variants held by the `RetrieverHolder`
(src/utils.py): `dummy` embeds `DummyRetriever`, whose `invoke` returns
`[]` (src/utils.py lines 48-52); `faiss` embeds
`vectorstore.as_retriever()` (src/rag_core.py line 75), whose `invoke`
performs the external nearest-neighbour search, carried here as an opaque
function. -/
inductive Retriever where
  | dummy
  | faiss (search : String → List Document)

/-- The `invoke` method of whichever retriever is held
(src/utils.py lines 48-52 for `DummyRetriever`; the FAISS retriever is the
external search function). -/
def Retriever.invoke : Retriever → String → List Document
  | .dummy, _ => []
  | .faiss f, q => f q

/-- Outcome of constructing a loader for the path and calling
`loader.load()` (src/rag_core.py lines 48-62): the documents, or a raised
`ImportError` (a parser library is missing), or any other raised
exception, carried with its `str(e)` text. -/
inductive LoadResult where
  | ok (docs : List Document)
  | importErr (msg : String)
  | err (msg : String)

/-- Outcome of building the embeddings object and
`FAISS.from_documents(...).as_retriever()` (src/rag_core.py lines 71-75):
a retriever, a raised `ImportError`, or any other raised exception with
its `str(e)` text. -/
inductive EmbedResult where
  | ok (search : String → List Document)
  | importErr (msg : String)
  | err (msg : String)

/-- The external collaborators of ingestion and of the `/load` command
handler, treated as oracles (spec section 1 excludes their internals):
the extension-selected document loader, the `RecursiveCharacterTextSplitter`
(a pure function of the loaded documents), the embedding service plus
FAISS index construction, `os.path.exists`, and `os.path.normpath`. -/
structure IngestEnv where
  load : String → LoadResult
  split : List Document → List Document
  embed : List Document → EmbedResult
  pathExists : String → Bool
  normpath : String → String

/-- One print statement of `load_and_process_document`, one constructor
per textual message of src/rag_core.py:
  * `loading p` — line 45, the initial status line naming the path;
  * `splitCount n` — line 69, the chunk-count report;
  * `unsupported` — lines 57-59, the unsupported-format error text;
  * `depMissingHeader` — line 78, the dependency-missing banner;
  * `depPdfHint` — lines 84-85, the pypdf installation hint;
  * `depDocxHint` — lines 87-90, the unstructured installation hint;
  * `depGeneric m` — lines 92-94, the generic ImportError text;
  * `procError m` — line 98, the generic processing-error text;
  * `quotaHeader`, `quotaNoteA`, `quotaNoteB`, `quotaNoteC` —
    lines 100-107, the four quota-failure lines. -/
inductive Msg where
  | loading (p : String)
  | splitCount (n : Nat)
  | unsupported
  | depMissingHeader
  | depPdfHint
  | depDocxHint
  | depGeneric (m : String)
  | procError (m : String)
  | quotaHeader
  | quotaNoteA
  | quotaNoteB
  | quotaNoteC
deriving DecidableEq

/-- What one call to `load_and_process_document` gives back: the Python
return value (`retval`, a retriever or `None`), the printed diagnostics in
order, and the files read (`loader.load()` reads the file at the given
path; the function contains no write to disk, so there is no write
channel). -/
structure IngestResult where
  retval : Option Retriever
  printed : List Msg
  reads : List String

/-- Python `needle in hay` on the character lists of two strings. -/
def subOf (pat : List Char) : List Char → Bool
  | [] => pat.isEmpty
  | c :: rest => pat.isPrefixOf (c :: rest) || subOf pat rest

/-- Python `needle in hay` for strings. -/
def strContainsSub (hay pat : String) : Bool :=
  subOf pat.data hay.data

def pdfExt : String := ".pdf"

def txtExt : String := ".txt"

def docxExt : String := ".docx"

def csvExt : String := ".csv"

def quotaNeedle : String := "Quota exceeded"

def pypdfNeedle : String := "PyPDFLoader"

def unstructuredNeedle : String := "UnstructuredWordDocumentLoader"

/-- Python `s.endswith(suffix)`, embedded on the character lists of the
two strings. -/
def strEndsWith (s suffix : String) : Bool :=
  suffix.data.isSuffixOf s.data

/-- The extension dispatch of src/rag_core.py lines 48-55: the path ends
in one of the four recognized extensions. -/
def supportedExt (p : String) : Bool :=
  strEndsWith p pdfExt || strEndsWith p txtExt || strEndsWith p docxExt ||
    strEndsWith p csvExt

/-- The hint printed under the dependency-missing banner
(src/rag_core.py lines 79-94): pypdf advice when `"PyPDFLoader"` occurs in
`str(e)` or the path ends in `.pdf`/`.csv`, else unstructured advice when
`"UnstructuredWordDocumentLoader"` occurs in `str(e)` or the path ends in
`.docx`, else the generic ImportError text. -/
def depHint (p m : String) : Msg :=
  if strContainsSub m pypdfNeedle || strEndsWith p pdfExt ||
      strEndsWith p csvExt then
    .depPdfHint
  else if strContainsSub m unstructuredNeedle || strEndsWith p docxExt then
    .depDocxHint
  else
    .depGeneric m

/-- The prints of the `except ImportError` handler
(src/rag_core.py lines 77-95): the banner, then one hint. -/
def depMsgs (p m : String) : List Msg :=
  [.depMissingHeader, depHint p m]

/-- The prints of the `except Exception` handler
(src/rag_core.py lines 97-108): the error text, plus the four quota lines
when `"Quota exceeded"` occurs in `str(e)`. -/
def procMsgs (m : String) : List Msg :=
  .procError m ::
    (if strContainsSub m quotaNeedle then
      [.quotaHeader, .quotaNoteA, .quotaNoteB, .quotaNoteC]
    else [])

/--
`load_and_process_document` (src/rag_core.py lines 27-108).  The initial
status line prints before the extension check; an unrecognized extension
returns `None` before any file I/O; otherwise the loader reads the file,
the splitter chunks the documents (printing the chunk count), and
embedding plus FAISS construction yields the retriever.  A raised
`ImportError` anywhere in the `try` body lands in the first handler, any
other exception in the second; both handlers print and return `None`, so
no exception escapes to the caller.
-/
def load_and_process_document (env : IngestEnv) (p : String) : IngestResult :=
  if supportedExt p then
    match env.load p with
    | .ok docs =>
      match env.embed (env.split docs) with
      | .ok f =>
        { retval := some (.faiss f)
          printed := [.loading p, .splitCount (env.split docs).length]
          reads := [p] }
      | .importErr m =>
        { retval := none
          printed := [.loading p, .splitCount (env.split docs).length] ++ depMsgs p m
          reads := [p] }
      | .err m =>
        { retval := none
          printed := [.loading p, .splitCount (env.split docs).length] ++ procMsgs m
          reads := [p] }
    | .importErr m =>
      { retval := none, printed := .loading p :: depMsgs p m, reads := [p] }
    | .err m =>
      { retval := none, printed := .loading p :: procMsgs m, reads := [p] }
  else
    { retval := none, printed := [.loading p, .unsupported], reads := [] }

/-- The Python function receives only the file path: it holds no reference
to the `RetrieverHolder` and contains no assignment to it (src/rag_core.py
lines 27-108), so threading a slot value through the call leaves the slot
untouched. -/
def ingest_with_slot (env : IngestEnv) (p : String) (slot : Retriever) :
    IngestResult × Retriever :=
  (load_and_process_document env p, slot)

/-- The four ingestion failure conditions of the specification
(spec sections 4.1 and 7). -/
inductive Report where
  | unsupportedFormat
  | parserUnavailable
  | quotaExceeded
  | otherError
deriving DecidableEq

/-- Modelled from the spec: the ground-truth failure condition of one
ingestion call, following the taxonomy of spec section 4.1 —
`UnsupportedFormat` for an unrecognized extension, `ParserUnavailable`
for a missing parser library (`ImportError`), `EmbeddingQuotaExceeded`
for a rejection whose text reports an exceeded quota, and
`EmbeddingOrParseError` for any other parsing or embedding failure;
`none` on success. -/
def failureConditionOf (env : IngestEnv) (p : String) : Option Report :=
  if supportedExt p then
    match env.load p with
    | .ok docs =>
      match env.embed (env.split docs) with
      | .ok _ => none
      | .importErr _ => some .parserUnavailable
      | .err m =>
        if strContainsSub m quotaNeedle then some .quotaExceeded
        else some .otherError
    | .importErr _ => some .parserUnavailable
    | .err m =>
      if strContainsSub m quotaNeedle then some .quotaExceeded
      else some .otherError
  else
    some .unsupportedFormat

/-- Scan a diagnostic list for one specific message. -/
def hasMsg (target : Msg) : List Msg → Bool
  | [] => false
  | m :: rest => if m = target then true else hasMsg target rest

/-- A caller-side decoder of the printed diagnostics: which failure
condition the printed output reveals.  Each condition is recognized by a
message that only its handler prints: the unsupported-format error text,
the dependency-missing banner, or the processing-error text (qualified as
a quota failure when the quota banner follows it). -/
def classify : List Msg → Option Report
  | [] => none
  | .unsupported :: _ => some .unsupportedFormat
  | .depMissingHeader :: _ => some .parserUnavailable
  | .procError _ :: rest =>
    if hasMsg .quotaHeader rest then some .quotaExceeded else some .otherError
  | _ :: rest => classify rest

/- ====================================================================
Conversation pipeline (src/rag_core.py `setup_rag_chain`,
src/main.py interactive loop)
==================================================================== -/

/-- The whole application state visible across turns: the retriever held
by the `RetrieverHolder` (src/main.py line 43, src/utils.py lines 21-36)
and the session store plus durable files of src/utils.py. -/
structure AppState where
  slot : Retriever
  sess : SessionState

/-- The single structured request sent to the chat model on one turn
(src/rag_core.py lines 127-137): the system instruction with the context
substituted, the prior transcript filling the `history` placeholder, and
the current question. -/
structure ChatRequest where
  system : String
  history : List Message
  question : String

/-- The system instruction of the prompt template
(src/rag_core.py lines 130-132) up to the `{context}` placeholder. -/
def sysPrefix : String :=
  "You are a helpful assistant. Answer the user\x27s question using the provided context if it is relevant. If the context is not sufficient or the question is general, use your general knowledge to answer.\n\nContext:\n"

/-- The filled system instruction: the template with `context` substituted
for the placeholder. -/
def promptSystem (context : String) : String :=
  sysPrefix ++ context

def blankSep : String := "\n\n"

/-- `format_docs` (src/rag_core.py lines 139-141):
`"\n\n".join(doc.page_content for doc in docs)`. -/
def format_docs (docs : List Document) : String :=
  String.intercalate blankSep (docs.map Document.page_content)

/-- `dynamic_retrieval` (src/rag_core.py lines 143-148): invoke whichever
retriever the holder currently carries on the question and join the
resulting chunk texts. -/
def dynamic_retrieval (slot : Retriever) (question : String) : String :=
  format_docs (slot.invoke question)

/-- The prompt assembly of the chain (src/rag_core.py lines 150-152):
context from `dynamic_retrieval`, prior history, current question. -/
def build_request (slot : Retriever) (hist : List Message) (question : String) :
    ChatRequest :=
  { system := promptSystem (dynamic_retrieval slot question)
    history := hist
    question := question }

/-- The request one turn sends to the chat model, as a function of the
application state: history fetched through `get_session_history`, context
through the currently held retriever. -/
def turn_request (sid question : String) (st : AppState) : ChatRequest :=
  build_request st.slot (get_session_history sid st.sess).1 question

/-- Outcome of one synchronous chat-model invocation: the answer text
after `StrOutputParser`, or a raised exception with its text. -/
inductive LlmResult where
  | ok (answer : String)
  | err (msg : String)

/-- The chat model as an oracle (spec section 1 treats it as an opaque
service). -/
structure ChatEnv where
  llm : ChatRequest → LlmResult

/--
One `conversational_rag_chain.invoke` call (src/rag_core.py
lines 154-159 wiring, src/main.py lines 90-93 call site).  Modelled from
the spec for the library part: `RunnableWithMessageHistory` (external
langchain code, not in src/) fetches the prior transcript through
`get_session_history`, runs the chain on the assembled request, and — per
spec section 4.4 steps 5-6 and its failure clause — on success appends a
human message with the question and then an ai message with the answer to
that session's transcript, while a raised invocation failure propagates
with nothing appended.  The store entry that `get_session_history`
creates on a first access is a Python-side mutation of the global `store`
dict and survives either outcome.
-/
def respond (env : ChatEnv) (sid question : String) (st : AppState) :
    Option String × AppState :=
  match env.llm (turn_request sid question st) with
  | .err _ => (none, { st with sess := (get_session_history sid st.sess).2 })
  | .ok ans =>
    (some ans,
      { st with
        sess :=
          storePut sid
            ((get_session_history sid st.sess).1 ++
              [⟨.human, question⟩, ⟨.ai, ans⟩])
            (get_session_history sid st.sess).2 })

/--
One chat turn of the interactive loop (src/main.py lines 89-104): invoke
the chain; on success print the answer and persist the session with
`save_session_history`; on a raised exception print the error text and
continue without saving.
-/
def chat_turn (env : ChatEnv) (sid question : String) (st : AppState) :
    Option String × AppState :=
  match respond env sid question st with
  | (some a, st1) => (some a, { st1 with sess := save_session_history sid st1.sess })
  | (none, st1) => (none, st1)

/--
The `/load` command handler (src/main.py lines 62-87), given the path text
already split off the command: normalize it; if no file exists there,
print and leave everything unchanged; otherwise run
`load_and_process_document` and install its retriever in the holder on
success, or install a freshly constructed `DummyRetriever` on failure.
-/
def handle_load (env : IngestEnv) (raw : String) (st : AppState) : AppState :=
  let p := env.normpath raw
  if env.pathExists p then
    match (load_and_process_document env p).retval with
    | some r => { st with slot := r }
    | none => { st with slot := .dummy }
  else
    st

/- ====================================================================
Concrete inputs used by witnesses and counterexamples
==================================================================== -/

def sidW : String := "user_session_id_v1"

def qW : String := "hi"

def ansW : String := "hello"

def errW : String := "boom"

def xlsxW : String := "report.xlsx"

def txtW : String := "doc.txt"

def quotaErrW : String := "429 Quota exceeded for metric embeddings"

/-- An empty application state: dummy retriever, empty store, no files
(the state right after startup, src/main.py line 43). -/
def st0 : AppState :=
  { slot := .dummy, sess := { store := fun _ => none, files := fun _ => none } }

/-- A session state whose store already holds a two-message transcript for
`sidW`. -/
def stStored : SessionState :=
  { store := fun k => if k = sidW then some [⟨.human, qW⟩, ⟨.ai, ansW⟩] else none
    files := fun _ => none }

/-- A chat oracle that always answers `ansW`. -/
def envOk : ChatEnv := { llm := fun _ => .ok ansW }

/-- A chat oracle that always raises. -/
def envBad : ChatEnv := { llm := fun _ => .err errW }

/-- An ingestion environment whose loader succeeds trivially and whose
embedding service raises a quota-exceeded error; paths exist and
normalization is the identity. -/
def envQuota : IngestEnv :=
  { load := fun _ => .ok []
    split := fun d => d
    embed := fun _ => .err quotaErrW
    pathExists := fun _ => true
    normpath := fun s => s }

/-- An ingestion environment whose target path does not exist. -/
def envNoFile : IngestEnv :=
  { load := fun _ => .ok []
    split := fun d => d
    embed := fun _ => .err quotaErrW
    pathExists := fun _ => false
    normpath := fun s => s }

/-- A session file whose array holds one well-formed human entry followed
by an entry missing both required fields. -/
def truncatedEntryFile : FileContent :=
  .parsed (.arr [encodeMsg ⟨.human, qW⟩, .obj []])

/-- A files map carrying `truncatedEntryFile` for `sidW`. -/
def cexFiles : String → Option FileContent :=
  fun k => if k = sidW then some truncatedEntryFile else none

/-- A files map carrying unparsable text for `sidW`. -/
def unparsableFiles : String → Option FileContent :=
  fun k => if k = sidW then some .unparsable else none

/-- A files map carrying a parsed non-array JSON value for `sidW`. -/
def nonArrayFiles : String → Option FileContent :=
  fun k => if k = sidW then some (.parsed (.num 3)) else none

/-- An entry whose `"type"` is the unrecognized string `"system"`. -/
def systemEntry : Json :=
  .obj [(typeKey, .str "system"), (contentKey, .str qW)]

/-- A three-entry session file: human, unrecognized type, ai. -/
def mixedItems : List Json :=
  [encodeMsg ⟨.human, qW⟩, systemEntry, encodeMsg ⟨.ai, ansW⟩]

/-- A files map carrying the mixed-entry array for `sidW`. -/
def mixedFiles : String → Option FileContent :=
  fun k => if k = sidW then some (.parsed (.arr mixedItems)) else none

/-- Modelled from the spec: the predicate of claim C9 on one persisted
entry — a JSON object having a `"type"` field and a string `"content"`
field (the persisted format of spec sections 3 and 6 only ever stores
strings as contents). -/
def wellFormedEntry (j : Json) : Prop :=
  ∃ fields t c,
    j = .obj fields ∧ jlookup typeKey fields = some t ∧
      jlookup contentKey fields = some (.str c)

/-- Modelled from the spec: the per-entry decoding claim C9 asserts — a
`"human"` or `"ai"` type yields the corresponding message, any other type
value yields nothing. -/
def decodeEntry (j : Json) : Option Message :=
  match j with
  | .obj fields =>
    match jlookup typeKey fields, jlookup contentKey fields with
    | some t, some (.str c) =>
      if jsonEqStr t humanStr then some ⟨.human, c⟩
      else if jsonEqStr t aiStr then some ⟨.ai, c⟩
      else none
    | _, _ => none
  | _ => none

/- Basic evaluation lemmas. -/

theorem entryStep_encode (m : Message) : entryStep (encodeMsg m) = some (some m) := by
  cases m with
  | mk role content => cases role <;> rfl

theorem loadEntries_encode (T acc : List Message) :
    loadEntries (T.map encodeMsg) acc = acc ++ T := by
  induction T generalizing acc with
  | nil => simp [loadEntries]
  | cons m T ih =>
    simp only [List.map, loadEntries, entryStep_encode, ih]
    simp

theorem loadFile_serialize (T : List Message) :
    loadFile (.parsed (serialize T)) = T := by
  simp [loadFile, serialize, loadEntries_encode]

theorem save_store_eq (sid : String) (s : SessionState) :
    (save_session_history sid s).store = s.store := by
  unfold save_session_history
  cases s.store sid <;> rfl

theorem get_files_eq (sid : String) (s : SessionState) :
    (get_session_history sid s).2.files = s.files := by
  unfold get_session_history
  cases s.store sid <;> rfl

theorem get_stable (sid : String) (s : SessionState) :
    (get_session_history sid ((get_session_history sid s).2)).1 =
      (get_session_history sid s).1 := by
  unfold get_session_history
  cases h : s.store sid with
  | some t => simp [h]
  | none => simp [h, storePut]

theorem loadEntries_encode_append (T : List Message) (L : List Json)
    (acc : List Message) :
    loadEntries (T.map encodeMsg ++ L) acc = loadEntries L (acc ++ T) := by
  induction T generalizing acc with
  | nil => simp
  | cons m T ih =>
    simp only [List.map_cons, List.cons_append, loadEntries, entryStep_encode,
      List.append_eq]
    rw [ih, List.append_assoc]
    rfl

theorem entryStep_wf (j : Json) (h : wellFormedEntry j) :
    entryStep j = some (decodeEntry j) := by
  obtain ⟨fields, t, c, rfl, ht, hc⟩ := h
  simp only [entryStep, decodeEntry, ht, hc]
  by_cases h1 : jsonEqStr t humanStr
  · simp [h1]
  · by_cases h2 : jsonEqStr t aiStr <;> simp [h1, h2]

theorem loadEntries_wf (items : List Json) (acc : List Message)
    (h : ∀ j ∈ items, wellFormedEntry j) :
    loadEntries items acc = acc ++ items.filterMap decodeEntry := by
  induction items generalizing acc with
  | nil => simp [loadEntries]
  | cons j rest ih =>
    have hj := h j (by simp)
    have hrest : ∀ k ∈ rest, wellFormedEntry k := fun k hk => h k (by simp [hk])
    simp only [loadEntries, entryStep_wf j hj]
    cases hd : decodeEntry j with
    | none => simp [List.filterMap_cons, hd, ih _ hrest]
    | some m =>
      simp [List.filterMap_cons, hd, ih _ hrest]

/-- Claim C3: saving a stored Transcript and reloading it through
`history` on a fresh Session Store (empty in-memory cache) reproduces the
same Messages in the same order, with role and content preserved
exactly. -/
theorem spec_c3_roundtrip (sid : String) (T : List Message) (s : SessionState)
    (h : s.store sid = some T) :
    historyView sid ⟨fun _ => none, (save_session_history sid s).files⟩ = T := by
  have hf : (save_session_history sid s).files sid =
      some (.parsed (serialize T)) := by
    simp [save_session_history, h, filesPut]
  simp [historyView, get_session_history, initialLoad, hf, loadFile_serialize]

/-- Witness for claim C3 at a concrete two-message transcript. -/
theorem spec_c3_witness :
    stStored.store sidW = some [⟨.human, qW⟩, ⟨.ai, ansW⟩] ∧
    historyView sidW ⟨fun _ => none, (save_session_history sidW stStored).files⟩ =
      [⟨.human, qW⟩, ⟨.ai, ansW⟩] :=
  ⟨rfl, spec_c3_roundtrip sidW [⟨.human, qW⟩, ⟨.ai, ansW⟩] stStored rfl⟩

/-- Counterexample to claim C4 as stated: a durable file whose JSON array
holds a well-formed human entry followed by an entry missing both
required fields is malformed in the claim's sense, yet the first
`history` call returns the one-message transcript `[{human, "hi"}]`, not
an empty Transcript — the load loop keeps every message appended before
the raising entry. -/
theorem spec_c4_counterexample :
    historyView sidW ⟨fun _ => none, cexFiles⟩ = [⟨.human, qW⟩] ∧
    [(⟨.human, qW⟩ : Message)] ≠ [] := by
  exact ⟨rfl, by decide⟩

/-- Claim C4 (amended): a durable file that is unreadable or fails JSON
parsing, or whose parsed value is not an array, makes the first `history`
call return an empty Transcript; when the parsed value is an array,
`history` replays entries in file order until the first entry that raises
and returns exactly the prefix loaded so far (empty when the offending
entry comes first); in every case no failure propagates. -/
theorem spec_c4_partial_load (sid : String) (files : String → Option FileContent)
    (fc : FileContent) (hfc : files sid = some fc) :
    (fc = .unparsable → historyView sid ⟨fun _ => none, files⟩ = []) ∧
    (∀ j, fc = .parsed j → (∀ items, j ≠ .arr items) →
      historyView sid ⟨fun _ => none, files⟩ = []) ∧
    (∀ T bad rest, fc = .parsed (.arr (T.map encodeMsg ++ bad :: rest)) →
      entryStep bad = none →
      historyView sid ⟨fun _ => none, files⟩ = T) := by
  have hview : historyView sid ⟨fun _ => none, files⟩ = loadFile fc := by
    simp [historyView, get_session_history, initialLoad, hfc]
  refine ⟨?_, ?_, ?_⟩
  · rintro rfl
    exact hview
  · rintro j rfl hne
    rw [hview]
    cases j with
    | arr items => exact absurd rfl (hne items)
    | str s => rfl
    | num n => rfl
    | bool b => rfl
    | null => rfl
    | obj fields => rfl
  · rintro T bad rest rfl hbad
    rw [hview]
    show loadEntries (T.map encodeMsg ++ bad :: rest) [] = T
    rw [loadEntries_encode_append]
    simp [loadEntries, hbad]

/-- Witness for the amended claim C4: an unparsable file and a
non-array file load as empty, and the counterexample file loads as the
one-message prefix before its field-less entry. -/
theorem spec_c4_witness :
    historyView sidW ⟨fun _ => none, unparsableFiles⟩ = [] ∧
    historyView sidW ⟨fun _ => none, nonArrayFiles⟩ = [] ∧
    historyView sidW ⟨fun _ => none, cexFiles⟩ = [⟨.human, qW⟩] := by
  refine ⟨?_, ?_, ?_⟩
  · exact (spec_c4_partial_load sidW unparsableFiles .unparsable rfl).1 rfl
  · exact (spec_c4_partial_load sidW nonArrayFiles (.parsed (.num 3)) rfl).2.1
      (.num 3) rfl (fun items h => by cases h)
  · exact (spec_c4_partial_load sidW cexFiles truncatedEntryFile rfl).2.2
      [⟨.human, qW⟩] (.obj []) [] rfl rfl

/-- Claim C8: the Session Store holds at most one Transcript per session
identifier (it is a dict keyed by the identifier): the first `history`
call for an identifier creates its entry from the durable load, any later
`history` call returns the cached Transcript unchanged and independently
of the durable files (no re-read), repeated calls agree, and `save` never
creates or replaces a store entry. -/
theorem spec_c8_cache (sid : String) (s : SessionState) (h0 : List Message) :
    (s.store sid = none →
      get_session_history sid s =
        (initialLoad sid s, storePut sid (initialLoad sid s) s) ∧
      (get_session_history sid s).2.store sid = some (initialLoad sid s)) ∧
    (s.store sid = some h0 →
      get_session_history sid s = (h0, s) ∧
      (∀ f2, get_session_history sid { s with files := f2 } =
        (h0, { s with files := f2 }))) ∧
    (get_session_history sid ((get_session_history sid s).2)).1 =
      (get_session_history sid s).1 ∧
    (save_session_history sid s).store = s.store := by
  refine ⟨?_, ?_, get_stable sid s, save_store_eq sid s⟩
  · intro h
    constructor
    · simp [get_session_history, h]
    · simp [get_session_history, h, storePut]
  · intro h
    constructor
    · simp [get_session_history, h]
    · intro f2
      simp [get_session_history, h]

/-- Witness for claim C8: a fresh store creates an (empty) entry on first
access, a populated store answers from cache with the state untouched,
and `save` leaves the store map intact. -/
theorem spec_c8_witness :
    (get_session_history sidW st0.sess).2.store sidW = some [] ∧
    get_session_history sidW stStored = ([⟨.human, qW⟩, ⟨.ai, ansW⟩], stStored) ∧
    (save_session_history sidW stStored).store = stStored.store := by
  refine ⟨?_, ?_, ?_⟩
  · exact ((spec_c8_cache sidW st0.sess []).1 rfl).2
  · exact ((spec_c8_cache sidW stStored [⟨.human, qW⟩, ⟨.ai, ansW⟩]).2.1 rfl).1
  · exact (spec_c8_cache sidW stStored []).2.2.2

/-- Claim C9: a durable file parsing to an array of objects that each
carry a `"type"` field and a (string) `"content"` field loads, in file
order, exactly the entries typed `"human"` or `"ai"`; entries with any
other type value are skipped without error and without cutting off the
remaining entries. -/
theorem spec_c9_filter (sid : String) (files : String → Option FileContent)
    (items : List Json) (h1 : files sid = some (.parsed (.arr items)))
    (h2 : ∀ j ∈ items, wellFormedEntry j) :
    historyView sid ⟨fun _ => none, files⟩ = items.filterMap decodeEntry := by
  have : historyView sid ⟨fun _ => none, files⟩ = loadEntries items [] := by
    simp [historyView, get_session_history, initialLoad, h1, loadFile]
  rw [this, loadEntries_wf items [] h2]
  rfl

/-- Witness for claim C9: a human entry, a `"system"`-typed entry and an
ai entry load as the human and ai messages, the middle entry skipped. -/
theorem spec_c9_witness :
    historyView sidW ⟨fun _ => none, mixedFiles⟩ =
      [⟨.human, qW⟩, ⟨.ai, ansW⟩] := by
  have h2 : ∀ j ∈ mixedItems, wellFormedEntry j := by
    intro j hj
    simp only [mixedItems, List.mem_cons, List.not_mem_nil, or_false] at hj
    rcases hj with rfl | rfl | rfl
    · exact ⟨_, .str humanStr, qW, rfl, rfl, rfl⟩
    · exact ⟨_, .str "system", qW, rfl, rfl, rfl⟩
    · exact ⟨_, .str aiStr, ansW, rfl, rfl, rfl⟩
  exact (spec_c9_filter sidW mixedFiles mixedItems rfl h2).trans (by decide)

theorem get_of_store_some {t : List Message} (sid : String) (s : SessionState)
    (h : s.store sid = some t) : get_session_history sid s = (t, s) := by
  simp [get_session_history, h]

/-- Claim C1: when a turn succeeds, the Transcript for the session grows
by exactly two Messages — the human question followed by the ai answer —
appended in that order at the end, with every previously stored Message
unchanged. -/
theorem spec_c1_append_two (env : ChatEnv) (sid q : String) (st : AppState)
    (a : String) (h : (chat_turn env sid q st).1 = some a) :
    historyView sid (chat_turn env sid q st).2.sess =
      historyView sid st.sess ++ [⟨.human, q⟩, ⟨.ai, a⟩] := by
  cases hl : env.llm (turn_request sid q st) with
  | err m =>
    exfalso
    simp [chat_turn, respond, hl] at h
  | ok ans =>
    have ha : a = ans := by
      have := h
      simp [chat_turn, respond, hl] at this
      exact this.symm
    subst ha
    have hstore :
        (save_session_history sid
          (storePut sid
            ((get_session_history sid st.sess).1 ++ [⟨.human, q⟩, ⟨.ai, a⟩])
            (get_session_history sid st.sess).2)).store sid =
        some ((get_session_history sid st.sess).1 ++ [⟨.human, q⟩, ⟨.ai, a⟩]) := by
      rw [save_store_eq]
      simp [storePut]
    have hc : (chat_turn env sid q st).2.sess =
        save_session_history sid
          (storePut sid
            ((get_session_history sid st.sess).1 ++ [⟨.human, q⟩, ⟨.ai, a⟩])
            (get_session_history sid st.sess).2) := by
      simp [chat_turn, respond, hl]
    unfold historyView
    rw [hc, get_of_store_some sid _ hstore]

/-- Witness for claim C1: on the empty startup state with an
always-answering chat oracle, the turn stores exactly the question and
the answer. -/
theorem spec_c1_witness :
    (chat_turn envOk sidW qW st0).1 = some ansW ∧
    historyView sidW (chat_turn envOk sidW qW st0).2.sess =
      historyView sidW st0.sess ++ [⟨.human, qW⟩, ⟨.ai, ansW⟩] :=
  ⟨rfl, spec_c1_append_two envOk sidW qW st0 ansW rfl⟩

/-- Claim C2: when a turn fails, the Transcript observable for the
session is unchanged and no durable file is written, so retrying the
question is idempotent with respect to stored history. -/
theorem spec_c2_failure_frame (env : ChatEnv) (sid q : String) (st : AppState)
    (h : (chat_turn env sid q st).1 = none) :
    historyView sid (chat_turn env sid q st).2.sess =
      historyView sid st.sess ∧
    (chat_turn env sid q st).2.sess.files = st.sess.files := by
  cases hl : env.llm (turn_request sid q st) with
  | ok ans =>
    exfalso
    simp [chat_turn, respond, hl] at h
  | err m =>
    have hc : (chat_turn env sid q st).2.sess =
        (get_session_history sid st.sess).2 := by
      simp [chat_turn, respond, hl]
    constructor
    · unfold historyView
      rw [hc]
      exact get_stable sid st.sess
    · rw [hc]
      exact get_files_eq sid st.sess

/-- Witness for claim C2: a turn against an always-raising chat oracle
leaves the observable transcript and the files of the startup state
untouched. -/
theorem spec_c2_witness :
    (chat_turn envBad sidW qW st0).1 = none ∧
    historyView sidW (chat_turn envBad sidW qW st0).2.sess =
      historyView sidW st0.sess ∧
    (chat_turn envBad sidW qW st0).2.sess.files = st0.sess.files := by
  have h := spec_c2_failure_frame envBad sidW qW st0 rfl
  exact ⟨rfl, h.1, h.2⟩

/-- Claim C7: the context embedded in the request sent to the chat model
is the blank-line-separated concatenation of the chunk texts the
currently held Retriever returns for the question, in returned order; in
particular a held Empty (dummy) retriever yields an empty context. -/
theorem spec_c7_context (sid q : String) (st : AppState) :
    (turn_request sid q st).system =
      sysPrefix ++
        String.intercalate blankSep
          ((st.slot.invoke q).map Document.page_content) ∧
    (st.slot = .dummy → (turn_request sid q st).system = sysPrefix) := by
  constructor
  · rfl
  · intro hd
    show promptSystem (dynamic_retrieval st.slot q) = sysPrefix
    rw [hd]
    show sysPrefix ++ String.intercalate blankSep [] = sysPrefix
    simp [String.intercalate]

/-- Witness for claim C7: the startup state holds the dummy retriever and
the system instruction of its request carries an empty context. -/
theorem spec_c7_witness :
    (turn_request sidW qW st0).system = sysPrefix :=
  (spec_c7_context sidW qW st0).2 rfl

/-- Counterexample to claim C5 as stated: two calls in different failure
conditions — an unsupported extension and a quota-exceeded embedding
failure — return the same value (Python `None`), so what `ingest` returns
does not distinguish the failure conditions from one another.  The
distinction lives only in the printed diagnostics. -/
theorem spec_c5_counterexample :
    failureConditionOf envQuota xlsxW = some .unsupportedFormat ∧
    failureConditionOf envQuota txtW = some .quotaExceeded ∧
    (load_and_process_document envQuota xlsxW).retval =
      (load_and_process_document envQuota txtW).retval ∧
    (load_and_process_document envQuota xlsxW).retval = none := by
  refine ⟨by decide, by decide, rfl, rfl⟩

/-- Claim C5 (amended): `load_and_process_document` never lets an
exception escape to its caller, and on every one of the four failure
conditions it returns the same untagged value `None`; the conditions
UnsupportedFormat, ParserUnavailable, EmbeddingQuotaExceeded and
EmbeddingOrParseError are distinguished from one another only through the
printed diagnostics, which identify the condition exactly. -/
theorem spec_c5_reported (env : IngestEnv) (p : String) :
    classify (load_and_process_document env p).printed =
      failureConditionOf env p ∧
    (failureConditionOf env p ≠ none →
      (load_and_process_document env p).retval = none) := by
  cases hs : supportedExt p with
  | false =>
    have hr : load_and_process_document env p =
        { retval := none, printed := [.loading p, .unsupported], reads := [] } := by
      simp [load_and_process_document, hs]
    have hcond : failureConditionOf env p = some .unsupportedFormat := by
      simp [failureConditionOf, hs]
    exact ⟨by rw [hr, hcond]; rfl, fun _ => by rw [hr]⟩
  | true =>
    cases hload : env.load p with
    | importErr m =>
      have hr : load_and_process_document env p =
          { retval := none, printed := .loading p :: depMsgs p m,
            reads := [p] } := by
        simp [load_and_process_document, hs, hload]
      have hcond : failureConditionOf env p = some .parserUnavailable := by
        simp [failureConditionOf, hs, hload]
      exact ⟨by rw [hr, hcond]; rfl, fun _ => by rw [hr]⟩
    | err m =>
      have hr : load_and_process_document env p =
          { retval := none, printed := .loading p :: procMsgs m,
            reads := [p] } := by
        simp [load_and_process_document, hs, hload]
      cases hq : strContainsSub m quotaNeedle with
      | true =>
        have hcond : failureConditionOf env p = some .quotaExceeded := by
          simp [failureConditionOf, hs, hload, hq]
        refine ⟨?_, fun _ => by rw [hr]⟩
        rw [hr, hcond]
        show classify (.loading p :: procMsgs m) = some .quotaExceeded
        simp only [procMsgs, hq]
        rfl
      | false =>
        have hcond : failureConditionOf env p = some .otherError := by
          simp [failureConditionOf, hs, hload, hq]
        refine ⟨?_, fun _ => by rw [hr]⟩
        rw [hr, hcond]
        show classify (.loading p :: procMsgs m) = some .otherError
        simp only [procMsgs, hq]
        rfl
    | ok docs =>
      cases hembed : env.embed (env.split docs) with
      | ok f =>
        have hr : load_and_process_document env p =
            { retval := some (.faiss f)
              printed := [.loading p, .splitCount (env.split docs).length]
              reads := [p] } := by
          simp [load_and_process_document, hs, hload, hembed]
        have hcond : failureConditionOf env p = none := by
          simp [failureConditionOf, hs, hload, hembed]
        exact ⟨by rw [hr, hcond]; rfl, fun hn => absurd hcond hn⟩
      | importErr m =>
        have hr : load_and_process_document env p =
            { retval := none
              printed :=
                .loading p :: .splitCount (env.split docs).length :: depMsgs p m
              reads := [p] } := by
          simp [load_and_process_document, hs, hload, hembed]
        have hcond : failureConditionOf env p = some .parserUnavailable := by
          simp [failureConditionOf, hs, hload, hembed]
        exact ⟨by rw [hr, hcond]; rfl, fun _ => by rw [hr]⟩
      | err m =>
        have hr : load_and_process_document env p =
            { retval := none
              printed :=
                .loading p :: .splitCount (env.split docs).length :: procMsgs m
              reads := [p] } := by
          simp [load_and_process_document, hs, hload, hembed]
        cases hq : strContainsSub m quotaNeedle with
        | true =>
          have hcond : failureConditionOf env p = some .quotaExceeded := by
            simp [failureConditionOf, hs, hload, hembed, hq]
          refine ⟨?_, fun _ => by rw [hr]⟩
          rw [hr, hcond]
          show classify (.loading p :: .splitCount (env.split docs).length ::
            procMsgs m) = some .quotaExceeded
          simp only [procMsgs, hq]
          rfl
        | false =>
          have hcond : failureConditionOf env p = some .otherError := by
            simp [failureConditionOf, hs, hload, hembed, hq]
          refine ⟨?_, fun _ => by rw [hr]⟩
          rw [hr, hcond]
          show classify (.loading p :: .splitCount (env.split docs).length ::
            procMsgs m) = some .otherError
          simp only [procMsgs, hq]
          rfl

/-- Witness for the amended claim C5: a quota-exceeded embedding failure
prints diagnostics that decode to the quota condition while the call
returns `None`. -/
theorem spec_c5_witness :
    classify (load_and_process_document envQuota txtW).printed =
      some .quotaExceeded ∧
    (load_and_process_document envQuota txtW).retval = none := by
  have h := spec_c5_reported envQuota txtW
  have hcond : failureConditionOf envQuota txtW = some .quotaExceeded := by
    decide
  exact ⟨by rw [h.1, hcond], h.2 (by rw [hcond]; exact fun hx => by cases hx)⟩

/-- Claim C6: a path whose extension is not one of the four recognized
ones makes `load_and_process_document` fail with the UnsupportedFormat
condition, read no file, and — since the function never touches the
Retriever Slot — leave any held retriever exactly as it was. -/
theorem spec_c6_frame (env : IngestEnv) (p : String) (slot : Retriever)
    (h : supportedExt p = false) :
    (load_and_process_document env p).retval = none ∧
    (load_and_process_document env p).printed = [.loading p, .unsupported] ∧
    (load_and_process_document env p).reads = [] ∧
    classify (load_and_process_document env p).printed =
      some .unsupportedFormat ∧
    (ingest_with_slot env p slot).2 = slot := by
  have hr : load_and_process_document env p =
      { retval := none, printed := [.loading p, .unsupported], reads := [] } := by
    simp [load_and_process_document, h]
  exact ⟨by rw [hr], by rw [hr], by rw [hr], by rw [hr]; rfl, rfl⟩

/-- Witness for claim C6 at the spec's example path `report.xlsx`. -/
theorem spec_c6_witness :
    supportedExt xlsxW = false ∧
    (load_and_process_document envQuota xlsxW).retval = none ∧
    (load_and_process_document envQuota xlsxW).reads = [] ∧
    (ingest_with_slot envQuota xlsxW .dummy).2 = .dummy := by
  have h : supportedExt xlsxW = false := by decide
  obtain ⟨h1, h2, h3, h4, h5⟩ := spec_c6_frame envQuota xlsxW .dummy h
  exact ⟨h, h1, h3, h5⟩

/-- Claim C10: in the `/load` handler, an existing path whose ingestion
fails installs a fresh dummy retriever in the slot (discarding whatever
was held) while leaving the session state alone, whereas a non-existing
path leaves the whole state unchanged and never attempts ingestion (the
outcome is independent of the loader, splitter and embedder). -/
theorem spec_c10_load_handler (env : IngestEnv) (raw : String) (st : AppState) :
    (env.pathExists (env.normpath raw) = false →
      handle_load env raw st = st ∧
      (∀ ld sp em,
        handle_load { env with load := ld, split := sp, embed := em } raw st =
          st)) ∧
    (env.pathExists (env.normpath raw) = true →
      (load_and_process_document env (env.normpath raw)).retval = none →
      (handle_load env raw st).slot = .dummy ∧
      (handle_load env raw st).sess = st.sess) := by
  constructor
  · intro h
    constructor
    · simp [handle_load, h]
    · intro ld sp em
      simp [handle_load, h]
  · intro h hfail
    constructor <;> simp [handle_load, h, hfail]

/-- Witness for claim C10: a missing path leaves the startup state
unchanged, and an existing path whose embedding hits the quota installs
the dummy retriever. -/
theorem spec_c10_witness :
    handle_load envNoFile txtW st0 = st0 ∧
    (handle_load envQuota txtW st0).slot = .dummy := by
  refine ⟨?_, ?_⟩
  · exact ((spec_c10_load_handler envNoFile txtW st0).1 rfl).1
  · exact ((spec_c10_load_handler envQuota txtW st0).2 rfl rfl).1
